import Mathlib

/-!
Shallow embedding of ViT/models/modeling.py (BackRazor Vision Transformer).

Conventions used throughout:
* machine floats are embedded as rationals;
* the transcendental exponential inside softmax is abstracted as a function
  parameter E : ℚ → ℚ (positivity of E is assumed only where a claim needs it);
* the float value -infinity written by masked_fill_ is embedded as none in
  Option ℚ, with exp applied to -infinity giving 0, matching IEEE semantics;
* dropout layers are embedded in evaluation mode (identity), matching the
  deterministic statements of the specification;
* tensors are total functions over Fin-indexed shapes, so shape agreement is
  enforced by typing.
-/

namespace ViTModel

/-- A dense (torch.nn.Linear) layer; weight has shape [outF, inF]. -/
structure LinearLayer (inF outF : ℕ) : Type where
  weight : Fin outF → Fin inF → ℚ
  bias : Fin outF → ℚ

/-- Application of a dense layer, y = W x + b. -/
def LinearLayer.apply {inF outF : ℕ} (L : LinearLayer inF outF) (x : Fin inF → ℚ) :
    Fin outF → ℚ :=
  fun r => (∑ c, L.weight r c * x c) + L.bias r

/-- A token tensor of shape [B, T, H]. -/
abbrev TokenT (B T H : ℕ) := Fin B → Fin T → Fin H → ℚ

/-- Row-major flattening of a (head, head-dim) index pair into the hidden axis,
the index arithmetic of tensor.view([..., nh, hs]). -/
def headIdx {nh hs : ℕ} (h : Fin nh) (d : Fin hs) : Fin (nh * hs) :=
  ⟨h.1 * hs + d.1, by
    calc h.1 * hs + d.1 < h.1 * hs + hs := Nat.add_lt_add_left d.2 _
      _ = (h.1 + 1) * hs := (Nat.succ_mul h.1 hs).symm
      _ ≤ nh * hs := Nat.mul_le_mul_right hs h.2⟩

/-- Inverse of headIdx: split a flattened hidden index back into
a (head, head-dim) pair. -/
def unIdx {nh hs : ℕ} (e : Fin (nh * hs)) : Fin nh × Fin hs :=
  have hpos : 0 < nh * hs := Nat.lt_of_le_of_lt (Nat.zero_le _) e.2
  have hs0 : 0 < hs := Nat.pos_of_ne_zero (fun h0 => by simp [h0] at hpos)
  ⟨⟨e.1 / hs, (Nat.div_lt_iff_lt_mul hs0).2 e.2⟩, ⟨e.1 % hs, Nat.mod_lt _ hs0⟩⟩

/-- The x.view(B, T, nh, hs).permute(0, 2, 1, 3) step of Attention
(method transpose_for_scores, modeling.py lines 103-106). -/
def transpose_for_scores {B T nh hs : ℕ} (x : TokenT B T (nh * hs)) :
    Fin B → Fin nh → Fin T → Fin hs → ℚ :=
  fun b h t d => x b t (headIdx h d)

/-- Exponential extended to scores that may be -infinity (none):
torch computes exp(-inf) = 0. -/
def fexp (E : ℚ → ℚ) : Option ℚ → ℚ
  | some v => E v
  | none => 0

/-- Softmax over the last axis (torch.nn.Softmax(dim=-1)) on a row whose
entries may be -infinity. -/
def softmaxRow {n : ℕ} (E : ℚ → ℚ) (r : Fin n → Option ℚ) : Fin n → ℚ :=
  fun j => fexp E (r j) / ∑ j2, fexp E (r j2)

/-- The Attention module (modeling.py lines 75-146), with the configuration
and parameters it reads in forward.  The mask parameter has shape
[1, num_heads, n_tokens, n_tokens]; the leading broadcast axis is dropped. -/
structure Attention (nh hs T : ℕ) : Type where
  prune_mode : Bool
  prune_after_softmax : Bool
  query : LinearLayer (nh * hs) (nh * hs)
  key : LinearLayer (nh * hs) (nh * hs)
  value : LinearLayer (nh * hs) (nh * hs)
  out : LinearLayer (nh * hs) (nh * hs)
  attention_mask : Fin nh → Fin T → Fin T → Bool

/-- Scaled dot-product scores QKᵀ / sqrt(head_size)
(modeling.py lines 109-118); sqrtHS stands for the float math.sqrt(hs). -/
def Attention.scoresOf {nh hs T B : ℕ} (A : Attention nh hs T) (sqrtHS : ℚ)
    (x : TokenT B T (nh * hs)) : Fin B → Fin nh → Fin T → Fin T → ℚ :=
  let q := transpose_for_scores (fun b t => A.query.apply (x b t))
  let k := transpose_for_scores (fun b t => A.key.apply (x b t))
  fun b h i j => (∑ d, q b h i d * k b h j d) / sqrtHS

/-- The attention-probability tensor of Attention.forward
(modeling.py lines 120-130):
* pre-softmax pruning: attention_scores.masked_fill_(~mask, -inf) then softmax;
* post-softmax pruning: softmax of the raw scores, then multiplication by
  (~mask).float(), which is 1 where mask is false and 0 where mask is true;
* no pruning: plain softmax. -/
def Attention.attentionProbs {nh hs T B : ℕ} (A : Attention nh hs T) (E : ℚ → ℚ)
    (sqrtHS : ℚ) (x : TokenT B T (nh * hs)) : Fin B → Fin nh → Fin T → Fin T → ℚ :=
  let s := A.scoresOf sqrtHS x
  if A.prune_mode then
    if A.prune_after_softmax then
      fun b h i j =>
        (if A.attention_mask h i j then 0 else 1) *
          softmaxRow E (fun j2 => some (s b h i j2)) j
    else
      fun b h i =>
        softmaxRow E (fun j => if A.attention_mask h i j then some (s b h i j) else none)
  else
    fun b h i => softmaxRow E (fun j => some (s b h i j))

/-- Attention.forward (modeling.py lines 108-146) in evaluation mode
(attn_dropout and proj_dropout are the identity), returning the attention
output tensor. -/
def Attention.forward {nh hs T B : ℕ} (A : Attention nh hs T) (E : ℚ → ℚ)
    (sqrtHS : ℚ) (x : TokenT B T (nh * hs)) : TokenT B T (nh * hs) :=
  let probs := A.attentionProbs E sqrtHS x
  let v := transpose_for_scores (fun b t => A.value.apply (x b t))
  let context : Fin B → Fin nh → Fin T → Fin hs → ℚ :=
    fun b h t d => ∑ j, probs b h t j * v b h j d
  fun b t e => A.out.apply (fun e2 => context b (unIdx e2).1 t (unIdx e2).2) e

/-- The full return value of the plain Attention.forward (modeling.py lines
137 and 146): the pair (attention_output, weights), weights being the
probability tensor when vis is set and None otherwise. -/
def Attention.forwardPair {nh hs T B : ℕ} (A : Attention nh hs T) (vis : Bool)
    (E : ℚ → ℚ) (sqrtHS : ℚ) (x : TokenT B T (nh * hs)) :
    TokenT B T (nh * hs) × Option (Fin B → Fin nh → Fin T → Fin T → ℚ) :=
  (A.forward E sqrtHS x,
    if vis then some (A.attentionProbs E sqrtHS x) else none)

/-- The StochasticDepth wrapper (modeling.py lines 39-58); the module field
holds the wrapped sub-module, p the drop probability. -/
structure StochasticDepth (M : Type) : Type where
  module : M
  p : ℚ

/-- StochasticDepth.__init__ (modeling.py lines 40-46): raises ValueError
unless 0 < p < 1. -/
def StochasticDepth.init {M : Type} (module : M) (p : ℚ) :
    Except String (StochasticDepth M) :=
  if 0 < p ∧ p < 1 then .ok ⟨module, p⟩
  else .error ("Stochastic Depth p has to be between 0 and 1 but got " ++ toString p)

/-- StochasticDepth.forward (modeling.py lines 48-58).  The single uniform
sample drawn by self.sampler.uniform_ is passed explicitly; training is the
module's training flag. -/
def StochasticDepth.forward {α : Type} [SMul ℚ α] (sd : StochasticDepth (α → α))
    (training : Bool) (sample : ℚ) (inputs : α) : α :=
  if training then
    if sample < sd.p then inputs
    else (1 - sd.p) • sd.module inputs
  else
    sd.module inputs

/-- The Python value the attn sub-module call produces inside Block.forward
(modeling.py line 254): the new_backrazor variant returns a bare token tensor
(the convention the removed-weights call sites expect), while the plain
Attention returns the (attention_output, weights) pair of modeling.py line
146.  W is the type of the weights payload. -/
inductive AttnRet (B T H : ℕ) (W : Type) : Type where
  | tensor (t : TokenT B T H)
  | tuple (output : TokenT B T H) (weights : Option W)

/-- Python addition x + h at modeling.py line 255: pointwise tensor addition
when x is a bare tensor, a TypeError when x is the (output, weights) tuple. -/
def AttnRet.addTensor {B T H : ℕ} {W : Type} :
    AttnRet B T H W → TokenT B T H → Except String (TokenT B T H)
  | .tensor t, h => .ok (t + h)
  | .tuple _ _, _ =>
    .error "TypeError: unsupported operand type for +: tuple and Tensor"

/-- A transformer Block's four sub-modules (modeling.py lines 221-249); the
attn call site yields an AttnRet because the plain Attention returns a pair
while the pruned variant returns a bare tensor. -/
structure Block (B T H : ℕ) (W : Type) : Type where
  attention_norm : TokenT B T H → TokenT B T H
  attn : TokenT B T H → AttnRet B T H W
  ffn_norm : TokenT B T H → TokenT B T H
  ffn : TokenT B T H → TokenT B T H

/-- The sub-module selection of Block.__init__ (modeling.py lines 222-249):
the normalization pair switches on new_backrazor between LayerNorm and
LayerNormSparse instances, the ffn is stochastic-depth-wrapped MlpActPrune,
bare MlpActPrune, or plain Mlp, and the attn is AttentionActPrune (bare
tensor result) or plain Attention (pair result, line 146).  The concrete
sub-module forwards are passed as parameters (LayerNormSparse, MlpActPrune
and AttentionActPrune live outside src). -/
def Block.init {B T H : ℕ} {W : Type} (new_backrazor layer_drop : Bool)
    (layerNormA layerNormF : TokenT B T H → TokenT B T H)
    (layerNormSparseA layerNormSparseF : TokenT B T H → TokenT B T H)
    (mlpPlain mlpPruned : TokenT B T H → TokenT B T H)
    (sdWrap : (TokenT B T H → TokenT B T H) → TokenT B T H → TokenT B T H)
    (attnPlain : TokenT B T H → TokenT B T H × Option W)
    (attnPruned : TokenT B T H → TokenT B T H) : Block B T H W where
  attention_norm := if new_backrazor then layerNormSparseA else layerNormA
  ffn_norm := if new_backrazor then layerNormSparseF else layerNormF
  ffn :=
    if new_backrazor && layer_drop then sdWrap mlpPruned
    else if new_backrazor then mlpPruned
    else mlpPlain
  attn :=
    if new_backrazor then fun t => .tensor (attnPruned t)
    else fun t => .tuple (attnPlain t).1 (attnPlain t).2

/-- Block.forward (modeling.py lines 251-266), translated statement by
statement; the attention residual x + h goes through AttnRet.addTensor, which
raises when the attn call returned the tuple of line 146. -/
def Block.forward {B T H : ℕ} {W : Type} (blk : Block B T H W) (x : TokenT B T H) :
    Except String (TokenT B T H) := do
  let h := x
  let x1 := blk.attention_norm x
  let x2 := blk.attn x1
  let x3 ← x2.addTensor h
  let h2 := x3
  let x4 := blk.ffn_norm x3
  let x5 := blk.ffn x4
  pure (x5 + h2)

/-- Parameters of an attention sub-module that Block.load_from writes
(query/key/value/out projections). -/
structure AttentionParams (H : ℕ) : Type where
  query : LinearLayer H H
  key : LinearLayer H H
  value : LinearLayer H H
  out : LinearLayer H H

/-- Parameters of an MLP sub-module that Block.load_from writes. -/
structure MlpParams (H M : ℕ) : Type where
  fc1 : LinearLayer H M
  fc2 : LinearLayer M H

/-- The attention sub-module a Block can hold: the plain Attention class
(src, lines 75-146) or AttentionActPrune.  Modelled from the spec:
AttentionActPrune (file ViT/models/modeling_new_prune.py is not under src/);
per the spec the pruned variant wraps internally a sub-module carrying the
same projection parameter names, reachable through its module attribute. -/
inductive AttnSubmodule (H : ℕ) : Type where
  | plain (a : AttentionParams H)
  | actPrune (inner : AttentionParams H)

/-- Python attribute lookup of .module on the attention sub-module: the plain
Attention class defines no attribute named module, so the lookup raises
AttributeError (returns none here). -/
def AttnSubmodule.moduleAttr {H : ℕ} : AttnSubmodule H → Option (AttentionParams H)
  | .plain _ => none
  | .actPrune a => some a

/-- Replacement of the parameters reached through the module attribute. -/
def AttnSubmodule.setModule {H : ℕ} :
    AttnSubmodule H → AttentionParams H → AttnSubmodule H
  | .plain a, _ => .plain a
  | .actPrune _, a2 => .actPrune a2

/-- The ffn sub-module a Block can hold: plain Mlp (src, lines 149-171),
MlpActPrune, or StochasticDepth-wrapped MlpActPrune.  Modelled from the spec:
MlpActPrune (file ViT/models/modeling_new_prune.py is not under src/); per the
spec the pruned variant wraps internally a sub-module carrying fc1/fc2. -/
inductive FfnSubmodule (H M : ℕ) : Type where
  | mlp (m : MlpParams H M)
  | actPrune (inner : MlpParams H M)
  | wrapped (w : StochasticDepth (MlpParams H M))

/-- Python attribute lookup of .module on the ffn sub-module: the plain Mlp
class defines no attribute named module; StochasticDepth exposes its field. -/
def FfnSubmodule.moduleAttr {H M : ℕ} : FfnSubmodule H M → Option (MlpParams H M)
  | .mlp _ => none
  | .actPrune m => some m
  | .wrapped w => some w.module

/-- Replacement of the parameters reached through the module attribute. -/
def FfnSubmodule.setModule {H M : ℕ} :
    FfnSubmodule H M → MlpParams H M → FfnSubmodule H M
  | .mlp m, _ => .mlp m
  | .actPrune _, m2 => .actPrune m2
  | .wrapped w, m2 => .wrapped ⟨m2, w.p⟩

/-- The parameters of a Block that load_from addresses. -/
structure BlockParams (H M : ℕ) : Type where
  attn : AttnSubmodule H
  ffn : FfnSubmodule H M
  attention_norm_weight : Fin H → ℚ
  attention_norm_bias : Fin H → ℚ
  ffn_norm_weight : Fin H → ℚ
  ffn_norm_bias : Fin H → ℚ

/-- The pretrained weight bundle: a read-only mapping from slash-delimited
string keys to numeric arrays (2-D entries in mat, 1-D entries in vec). -/
structure WeightBundle : Type where
  mat : String → Option (ℕ → ℕ → ℚ)
  vec : String → Option (ℕ → ℚ)

/-- Dictionary lookup of a 2-D array; a missing key raises KeyError. -/
def lookupMat (w : WeightBundle) (k : String) : Except String (ℕ → ℕ → ℚ) :=
  match w.mat k with
  | some v => .ok v
  | none => .error ("KeyError: " ++ k)

/-- Dictionary lookup of a 1-D array; a missing key raises KeyError. -/
def lookupVec (w : WeightBundle) (k : String) : Except String (ℕ → ℚ) :=
  match w.vec k with
  | some v => .ok v
  | none => .error ("KeyError: " ++ k)

/-- Key fragment for the query projection (modeling.py line 29). -/
def ATTENTION_Q : String := "MultiHeadDotProductAttention_1/query"

/-- Key fragment for the key projection (modeling.py line 30). -/
def ATTENTION_K : String := "MultiHeadDotProductAttention_1/key"

/-- Key fragment for the value projection (modeling.py line 31). -/
def ATTENTION_V : String := "MultiHeadDotProductAttention_1/value"

/-- Key fragment for the output projection (modeling.py line 32). -/
def ATTENTION_OUT : String := "MultiHeadDotProductAttention_1/out"

/-- Key fragment for the first MLP dense layer (modeling.py line 33). -/
def FC_0 : String := "MlpBlock_3/Dense_0"

/-- Key fragment for the second MLP dense layer (modeling.py line 34). -/
def FC_1 : String := "MlpBlock_3/Dense_1"

/-- Key fragment for the attention normalization (modeling.py line 35). -/
def ATTENTION_NORM : String := "LayerNorm_0"

/-- Key fragment for the MLP normalization (modeling.py line 36). -/
def MLP_NORM : String := "LayerNorm_2"

/-- Slash join of key path segments (os.path.join as used in modeling.py). -/
def pjoin (a b c : String) : String := a ++ "/" ++ b ++ "/" ++ c

/-- Block.load_from (modeling.py lines 268-303).  All eight attention arrays
are fetched first (lines 271-279); the writes then start with
self.attn.module.query (line 281), where the attribute lookup of module can
raise; the MLP arrays are fetched next (lines 290-293) and written through
self.ffn.module (lines 295-298); the two normalization pairs are written last
(lines 300-303).  Stored kernels are transposed on import (.t()). -/
def BlockParams.load_from {H M : ℕ} (blk : BlockParams H M) (weights : WeightBundle)
    (n_block : ℕ) : Except String (BlockParams H M) := do
  let ROOT := "Transformer/encoderblock_" ++ toString n_block
  let query_weight ← lookupMat weights (pjoin ROOT ATTENTION_Q "kernel")
  let key_weight ← lookupMat weights (pjoin ROOT ATTENTION_K "kernel")
  let value_weight ← lookupMat weights (pjoin ROOT ATTENTION_V "kernel")
  let out_weight ← lookupMat weights (pjoin ROOT ATTENTION_OUT "kernel")
  let query_bias ← lookupVec weights (pjoin ROOT ATTENTION_Q "bias")
  let key_bias ← lookupVec weights (pjoin ROOT ATTENTION_K "bias")
  let value_bias ← lookupVec weights (pjoin ROOT ATTENTION_V "bias")
  let out_bias ← lookupVec weights (pjoin ROOT ATTENTION_OUT "bias")
  match blk.attn.moduleAttr with
  | none => .error "AttributeError: Attention object has no attribute module"
  | some _ =>
    let am2 : AttentionParams H :=
      { query := { weight := fun r c => query_weight c.1 r.1, bias := fun r => query_bias r.1 }
        key := { weight := fun r c => key_weight c.1 r.1, bias := fun r => key_bias r.1 }
        value := { weight := fun r c => value_weight c.1 r.1, bias := fun r => value_bias r.1 }
        out := { weight := fun r c => out_weight c.1 r.1, bias := fun r => out_bias r.1 } }
    let mlp_weight_0 ← lookupMat weights (pjoin ROOT FC_0 "kernel")
    let mlp_weight_1 ← lookupMat weights (pjoin ROOT FC_1 "kernel")
    let mlp_bias_0 ← lookupVec weights (pjoin ROOT FC_0 "bias")
    let mlp_bias_1 ← lookupVec weights (pjoin ROOT FC_1 "bias")
    match blk.ffn.moduleAttr with
    | none => .error "AttributeError: Mlp object has no attribute module"
    | some _ =>
      let fm2 : MlpParams H M :=
        { fc1 := { weight := fun r c => mlp_weight_0 c.1 r.1, bias := fun r => mlp_bias_0 r.1 }
          fc2 := { weight := fun r c => mlp_weight_1 c.1 r.1, bias := fun r => mlp_bias_1 r.1 } }
      let anw ← lookupVec weights (pjoin ROOT ATTENTION_NORM "scale")
      let anb ← lookupVec weights (pjoin ROOT ATTENTION_NORM "bias")
      let fnw ← lookupVec weights (pjoin ROOT MLP_NORM "scale")
      let fnb ← lookupVec weights (pjoin ROOT MLP_NORM "bias")
      .ok { attn := blk.attn.setModule am2
            ffn := blk.ffn.setModule fm2
            attention_norm_weight := fun i => anw i.1
            attention_norm_bias := fun i => anb i.1
            ffn_norm_weight := fun i => fnw i.1
            ffn_norm_bias := fun i => fnb i.1 }

/-- Spatial positional-embedding rows 1..no-1 reshaped to (g, g, hidden)
(modeling.py line 404, classifier token case), valid when g * g equals the
number of spatial rows and a class row exists. -/
def reshapeGrid {h no : ℕ} (g : ℕ) (hg : g * g = no - 1) (hno : 1 ≤ no)
    (posemb : Fin no → Fin h → ℚ) : Fin g → Fin g → Fin h → ℚ :=
  fun a b k =>
    posemb ⟨1 + (headIdx a b).1, by
      have ht := (headIdx a b).2
      omega⟩ k

/-- All positional-embedding rows reshaped to (g, g, hidden)
(modeling.py line 404, non-token classifier case), valid when g * g = no. -/
def reshapeGridAll {h no : ℕ} (g : ℕ) (hg : g * g = no)
    (posemb : Fin no → Fin h → ℚ) : Fin g → Fin g → Fin h → ℚ :=
  fun a b k =>
    posemb ⟨(headIdx a b).1, by
      have ht := (headIdx a b).2
      omega⟩ k

/-- The token-classifier embedding table assembled by the resize path of
VisionTransformer.load_from (modeling.py lines 395-410): row 0 is the
checkpoint class-token row verbatim, rows 1.. are the flattening of the
zoomed spatial grid. -/
def resizedPosemb {h no nn : ℕ}
    (zoom : (a : ℕ) → (b : ℕ) → (Fin a → Fin a → Fin h → ℚ) → Fin b → Fin b → Fin h → ℚ)
    (posemb : Fin no → Fin h → ℚ) (hno : 1 ≤ no)
    (hold : Nat.sqrt (no - 1) * Nat.sqrt (no - 1) = no - 1)
    (hnew : 1 + Nat.sqrt (nn - 1) * Nat.sqrt (nn - 1) = nn) :
    Fin nn → Fin h → ℚ :=
  fun i k =>
    if hi : i.1 = 0 then posemb ⟨0, hno⟩ k
    else
      have hri : i.1 - 1 < Nat.sqrt (nn - 1) * Nat.sqrt (nn - 1) := by
        have h2 := i.2
        omega
      zoom (Nat.sqrt (no - 1)) (Nat.sqrt (nn - 1))
        (reshapeGrid (Nat.sqrt (no - 1)) hold hno posemb)
        (unIdx ⟨i.1 - 1, hri⟩).1 (unIdx ⟨i.1 - 1, hri⟩).2 k

/-- The positional-embedding import of VisionTransformer.load_from
(modeling.py lines 387-410).  The scipy ndimage.zoom order-1 interpolator is
an external collaborator, passed as the parameter zoom (old grid side, new
grid side, old grid contents).  Grid sides are int(np.sqrt(...)), the floor
square root.  none embeds the runtime errors the reshape and the final
copy_ raise when a row count is not a perfect square. -/
def load_posemb {h no nn : ℕ}
    (zoom : (a : ℕ) → (b : ℕ) → (Fin a → Fin a → Fin h → ℚ) → Fin b → Fin b → Fin h → ℚ)
    (classifier : String) (posemb : Fin no → Fin h → ℚ) :
    Option (Fin nn → Fin h → ℚ) :=
  if heq : no = nn then
    some (fun i k => posemb (Fin.cast heq.symm i) k)
  else
    if classifier = "token" then
      if hno : 1 ≤ no then
        if hold : Nat.sqrt (no - 1) * Nat.sqrt (no - 1) = no - 1 then
          if hnew : 1 + Nat.sqrt (nn - 1) * Nat.sqrt (nn - 1) = nn then
            some (resizedPosemb zoom posemb hno hold hnew)
          else none
        else none
      else none
    else
      if hold : Nat.sqrt no * Nat.sqrt no = no then
        let gs_new := Nat.sqrt nn
        let zoomed :=
          zoom (Nat.sqrt no) gs_new (reshapeGridAll (Nat.sqrt no) hold posemb)
        if hnew : gs_new * gs_new = nn then
          some (fun i k =>
            zoomed (unIdx ⟨i.1, by rw [hnew]; exact i.2⟩).1
              (unIdx ⟨i.1, by rw [hnew]; exact i.2⟩).2 k)
        else none
      else none

/-- Output of VisionTransformer.forward: the three return branches of
modeling.py lines 358-370. -/
inductive VTOutput (B T H C : ℕ) : Type where
  | features (f : Fin B → Fin (T + 1) → Fin H → ℚ)
  | loss (l : ℚ)
  | logits (g : Fin B → Fin C → ℚ)

/-- The top-level model state read by VisionTransformer.forward: the inner
Transformer (embeddings plus encoder, a token-tensor producer over T + 1
tokens including the class token) and the classification head. -/
structure VisionTransformer (B Hi Wi T H C : ℕ) : Type where
  transformer : (Fin B → Fin 3 → Fin Hi → Fin Wi → ℚ) → Fin B → Fin (T + 1) → Fin H → ℚ
  head : LinearLayer H C

/-- VisionTransformer.forward (modeling.py lines 358-370): feature-only mode
returns the encoded tokens; otherwise the head is applied to the class-token
row (position 0), and labels, when given, select the cross-entropy branch.
CrossEntropyLoss is an external collaborator passed as ce. -/
def VisionTransformer.forward {B Hi Wi T H C : ℕ} (vt : VisionTransformer B Hi Wi T H C)
    (ce : (Fin B → Fin C → ℚ) → (Fin B → Fin C) → ℚ)
    (x : Fin B → Fin 3 → Fin Hi → Fin Wi → ℚ) (labels : Option (Fin B → Fin C))
    (return_encoded_feature : Bool) : VTOutput B T H C :=
  let xt := vt.transformer x
  if return_encoded_feature then .features xt
  else
    let logits : Fin B → Fin C → ℚ := fun b => vt.head.apply (fun hh => xt b 0 hh)
    match labels with
    | some ls => .loss (ce logits ls)
    | none => .logits logits

/-- The classification-head import of VisionTransformer.load_from
(modeling.py lines 373-379): with zero_head the head weight and bias are
zeroed and the checkpoint is not consulted; otherwise head/kernel (transposed)
and head/bias are copied in. -/
def load_head {H C : ℕ} (zero_head : Bool) (weights : WeightBundle) :
    Except String (LinearLayer H C) :=
  if zero_head then
    .ok { weight := fun _ _ => 0, bias := fun _ => 0 }
  else do
    let hk ← lookupMat weights "head/kernel"
    let hb ← lookupVec weights "head/bias"
    .ok { weight := fun c hh => hk hh.1 c.1, bias := fun c => hb c.1 }

/-- Constant positive function standing in for exp in concrete evaluations. -/
def Eone : ℚ → ℚ := fun _ => 1

/-- Dense layer with all weights one and zero bias, for concrete instances. -/
def oneL : LinearLayer 1 1 :=
  { weight := fun _ _ => 1, bias := fun _ => 0 }

/-- Attention instance in post-softmax pruning mode over two tokens whose
mask keeps position 0 and prunes position 1. -/
def Apost2 : Attention 1 1 2 where
  prune_mode := true
  prune_after_softmax := true
  query := oneL
  key := oneL
  value := oneL
  out := oneL
  attention_mask := fun _ _ j => j.1 == 0

/-- Attention instance in pre-softmax pruning mode over two tokens whose
mask keeps position 0 and prunes position 1. -/
def Apre2 : Attention 1 1 2 where
  prune_mode := true
  prune_after_softmax := false
  query := oneL
  key := oneL
  value := oneL
  out := oneL
  attention_mask := fun _ _ j => j.1 == 0

/-- Single-token Attention instance in post-softmax pruning mode with the
all-true mask. -/
def Apost1 : Attention 1 1 1 where
  prune_mode := true
  prune_after_softmax := true
  query := oneL
  key := oneL
  value := oneL
  out := oneL
  attention_mask := fun _ _ _ => true

/-- Single-token Attention instance with pruning disabled. -/
def Aplain1 : Attention 1 1 1 where
  prune_mode := false
  prune_after_softmax := false
  query := oneL
  key := oneL
  value := oneL
  out := oneL
  attention_mask := fun _ _ _ => true

/-- All-ones input batch with one token. -/
def xone1 : TokenT 1 1 1 := fun _ _ _ => 1

/-- All-ones input batch with two tokens. -/
def xone2 : TokenT 1 2 1 := fun _ _ _ => 1

/-- Dense layer of an arbitrary shape with all entries zero. -/
def zeroL (a b : ℕ) : LinearLayer a b :=
  { weight := fun _ _ => 0, bias := fun _ => 0 }

/-- Attention parameters with all entries zero. -/
def zeroAttnP : AttentionParams 1 :=
  { query := zeroL 1 1, key := zeroL 1 1, value := zeroL 1 1, out := zeroL 1 1 }

/-- A Block in the plain configuration (new_backrazor false): plain Attention
and plain Mlp sub-modules. -/
def plainBlock : BlockParams 1 1 where
  attn := .plain zeroAttnP
  ffn := .mlp { fc1 := zeroL 1 1, fc2 := zeroL 1 1 }
  attention_norm_weight := fun _ => 1
  attention_norm_bias := fun _ => 0
  ffn_norm_weight := fun _ => 1
  ffn_norm_bias := fun _ => 0

/-- A weight bundle defined on every key (all-zero arrays). -/
def fullBundle : WeightBundle :=
  { mat := fun _ => some (fun _ _ => 0), vec := fun _ => some (fun _ => 0) }

/-- Zoom stand-in returning the zero grid, for the resize witness. -/
def zoomZero {h : ℕ} : (a : ℕ) → (b : ℕ) →
    (Fin a → Fin a → Fin h → ℚ) → Fin b → Fin b → Fin h → ℚ :=
  fun _ _ _ _ _ _ => 0

/-- A linear-ramp positional embedding with 2 rows (class row plus a 1-by-1
spatial grid). -/
def rampPosemb : Fin 2 → Fin 1 → ℚ := fun i _ => (i.1 : ℚ) + 7

/-- C6: StochasticDepth.forward in training mode returns the input unchanged
when the drawn sample falls below the drop probability and otherwise the
wrapped module's output scaled by 1 - p; in inference mode it always returns
the wrapped output unscaled, and in particular the inference output does not
depend on the drawn sample, so two inference calls on the same input agree. -/
theorem stochastic_depth_forward_behaviour {α : Type} [SMul ℚ α]
    (sd : StochasticDepth (α → α)) (sample : ℚ) (x : α) :
    (sd.forward true sample x =
      if sample < sd.p then x else (1 - sd.p) • sd.module x) ∧
    (sd.forward false sample x = sd.module x) ∧
    (∀ s2 : ℚ, sd.forward false sample x = sd.forward false s2 x) :=
  ⟨rfl, rfl, fun _ => rfl⟩

/-- C7: StochasticDepth construction succeeds exactly for drop probabilities
strictly between 0 and 1 and otherwise raises a ValueError. -/
theorem stochastic_depth_init_validation {M : Type} (m : M) (p : ℚ) :
    ((∃ sd, StochasticDepth.init m p = .ok sd) ↔ (0 < p ∧ p < 1)) ∧
    ((∃ msg, StochasticDepth.init m p = .error msg) ↔ ¬(0 < p ∧ p < 1)) := by
  unfold StochasticDepth.init
  by_cases hp : 0 < p ∧ p < 1
  · simp [hp]
  · simp [hp]

/-- C4 evaluation at the failing input: in the plain configuration
(new_backrazor false) the attention sub-module returns the
(attention_output, weights) tuple of modeling.py line 146, which Block.forward
assigns without unpacking (line 254), so the residual addition x + h at line
255 raises TypeError -- for every input and every choice of sub-modules,
instead of the residual composition the claim states.  In the new_backrazor
configurations, whose attention returns a bare token tensor, Block.forward is
the claimed fixed norm-attn-residual then norm-mlp-residual composition. -/
theorem block_forward_plain_raises {B T H : ℕ} {W : Type} (layer_drop : Bool)
    (lnA lnF lnsA lnsF mlpPlain mlpPruned : TokenT B T H → TokenT B T H)
    (sdWrap : (TokenT B T H → TokenT B T H) → TokenT B T H → TokenT B T H)
    (attnPlain : TokenT B T H → TokenT B T H × Option W)
    (attnPruned : TokenT B T H → TokenT B T H) (x : TokenT B T H) :
    ((Block.init false layer_drop lnA lnF lnsA lnsF mlpPlain mlpPruned
        sdWrap attnPlain attnPruned).forward x =
      .error "TypeError: unsupported operand type for +: tuple and Tensor") ∧
    ((Block.init true layer_drop lnA lnF lnsA lnsF mlpPlain mlpPruned
        sdWrap attnPlain attnPruned).forward x =
      .ok (
        let y := attnPruned (lnsA x) + x
        (if layer_drop then sdWrap mlpPruned else mlpPruned) (lnsF y) + y)) := by
  constructor
  · rfl
  · cases layer_drop <;> rfl

/-- C9: VisionTransformer.forward returns the full encoded token sequence in
feature-only mode bypassing the head, a scalar cross-entropy loss when integer
labels are given with the flag unset, and otherwise the logits obtained by
applying the linear head to the class-token (position 0) output. -/
theorem vision_transformer_forward_modes {B Hi Wi T H C : ℕ}
    (vt : VisionTransformer B Hi Wi T H C)
    (ce : (Fin B → Fin C → ℚ) → (Fin B → Fin C) → ℚ)
    (x : Fin B → Fin 3 → Fin Hi → Fin Wi → ℚ) (labels : Option (Fin B → Fin C)) :
    (vt.forward ce x labels true = .features (vt.transformer x)) ∧
    (∀ ls, vt.forward ce x (some ls) false =
      .loss (ce (fun b => vt.head.apply (fun hh => vt.transformer x b 0 hh)) ls)) ∧
    (vt.forward ce x none false =
      .logits (fun b => vt.head.apply (fun hh => vt.transformer x b 0 hh))) :=
  ⟨rfl, fun _ => rfl, rfl⟩

/-- C1 evaluation at the failing input: in post-softmax pruning mode the code
multiplies the softmax by the negation of the mask, keeping the softmax value
at the masked position (mask false) and zeroing the unmasked position (mask
true).  At this concrete instance the mask row is [true, false] and the full
softmax row is [1/2, 1/2]; the computed probabilities are [0, 1/2], while the
claim predicts [1/2, 0]. -/
theorem post_softmax_mask_inverted_eval :
    Apost2.attention_mask 0 0 0 = true ∧
    Apost2.attention_mask 0 0 1 = false ∧
    softmaxRow Eone (fun j2 => some (Apost2.scoresOf 1 xone2 0 0 0 j2)) 1 = 1/2 ∧
    Apost2.attentionProbs Eone 1 xone2 0 0 0 0 = 0 ∧
    Apost2.attentionProbs Eone 1 xone2 0 0 0 1 = 1/2 := by
  refine ⟨rfl, rfl, ?_, ?_, ?_⟩ <;>
    simp [Attention.attentionProbs, Attention.scoresOf, softmaxRow, fexp, Eone,
      Apost2, oneL, xone2, LinearLayer.apply, transpose_for_scores, headIdx,
      Fin.sum_univ_two, Fin.sum_univ_one]

/-- C2 evaluation at the failing input: with pruning enabled in post-softmax
mode and the all-true attention mask, the attention output at this concrete
instance is 0, while with pruning disabled the same input yields 1: the two
modes disagree although the claim states they coincide. -/
theorem all_true_mask_post_softmax_differs :
    Apost1.attention_mask 0 0 0 = true ∧
    Apost1.forward Eone 1 xone1 0 0 0 = 0 ∧
    Aplain1.forward Eone 1 xone1 0 0 0 = 1 ∧
    Apost1.forward Eone 1 xone1 0 0 0 ≠ Aplain1.forward Eone 1 xone1 0 0 0 := by
  have h0 : Apost1.forward Eone 1 xone1 0 0 0 = 0 := by
    simp [Attention.forward, Attention.attentionProbs, Attention.scoresOf,
      softmaxRow, fexp, Eone, Apost1, oneL, xone1, LinearLayer.apply,
      transpose_for_scores, headIdx, unIdx, Fin.sum_univ_one]
  have h1 : Aplain1.forward Eone 1 xone1 0 0 0 = 1 := by
    simp [Attention.forward, Attention.attentionProbs, Attention.scoresOf,
      softmaxRow, fexp, Eone, Aplain1, oneL, xone1, LinearLayer.apply,
      transpose_for_scores, headIdx, unIdx, Fin.sum_univ_one]
  refine ⟨rfl, h0, h1, ?_⟩
  rw [h0, h1]
  norm_num

/-- C5 evaluation at the failing input: Block.load_from on a block in the
plain configuration raises AttributeError while dereferencing
self.attn.module (the plain Attention class has no attribute named module),
so no parameters are copied at all. -/
theorem load_from_plain_block_fails :
    plainBlock.load_from fullBundle 0 =
      .error "AttributeError: Attention object has no attribute module" := rfl

/-- C3: in pre-softmax pruning mode, for every row of the mask keeping at
least one position, every masked entry of the post-softmax probability tensor
is exactly 0 and the kept entries of that (batch, head, query) row sum
exactly to 1.  E is the abstracted exponential, positive everywhere. -/
theorem pre_softmax_row_sums_to_one {nh hs T B : ℕ} (E : ℚ → ℚ)
    (hE : ∀ v, 0 < E v) (sqrtHS : ℚ) (A : Attention nh hs T)
    (hpm : A.prune_mode = true) (hps : A.prune_after_softmax = false)
    (x : TokenT B T (nh * hs)) (b : Fin B) (h : Fin nh) (i : Fin T)
    (hex : ∃ j, A.attention_mask h i j = true) :
    (∀ j, A.attention_mask h i j = false →
      A.attentionProbs E sqrtHS x b h i j = 0) ∧
    (∑ j, (if A.attention_mask h i j then A.attentionProbs E sqrtHS x b h i j
      else 0)) = 1 := by
  have hprobs : ∀ j, A.attentionProbs E sqrtHS x b h i j =
      softmaxRow E (fun j2 => if A.attention_mask h i j2 then
        some (A.scoresOf sqrtHS x b h i j2) else none) j := by
    intro j
    simp [Attention.attentionProbs, hpm, hps]
  have hterm : ∀ j2, fexp E (if A.attention_mask h i j2 then
      some (A.scoresOf sqrtHS x b h i j2) else none) =
      (if A.attention_mask h i j2 then E (A.scoresOf sqrtHS x b h i j2) else 0) := by
    intro j2
    by_cases hm : A.attention_mask h i j2 = true
    · simp [hm, fexp]
    · simp [hm, fexp]
  have hZpos : 0 < ∑ j2, fexp E (if A.attention_mask h i j2 then
      some (A.scoresOf sqrtHS x b h i j2) else none) := by
    obtain ⟨j0, hj0⟩ := hex
    refine Finset.sum_pos' (fun j2 _ => ?_) ⟨j0, Finset.mem_univ j0, ?_⟩
    · rw [hterm]
      by_cases hm : A.attention_mask h i j2 = true
      · rw [if_pos hm]
        exact le_of_lt (hE _)
      · rw [if_neg hm]
    · rw [hterm, if_pos hj0]
      exact hE _
  have hval : ∀ j, A.attentionProbs E sqrtHS x b h i j =
      (if A.attention_mask h i j then E (A.scoresOf sqrtHS x b h i j) else 0) /
      (∑ j2, fexp E (if A.attention_mask h i j2 then
        some (A.scoresOf sqrtHS x b h i j2) else none)) := by
    intro j
    rw [hprobs]
    simp only [softmaxRow]
    rw [hterm j]
  constructor
  · intro j hm
    rw [hval j]
    simp [hm]
  · have hsplit : (∑ j, (if A.attention_mask h i j then
        A.attentionProbs E sqrtHS x b h i j else 0)) =
        (∑ j, fexp E (if A.attention_mask h i j then
          some (A.scoresOf sqrtHS x b h i j) else none)) /
        (∑ j2, fexp E (if A.attention_mask h i j2 then
          some (A.scoresOf sqrtHS x b h i j2) else none)) := by
      rw [Finset.sum_div]
      refine Finset.sum_congr rfl (fun j _ => ?_)
      simp only [hterm j]
      by_cases hm : A.attention_mask h i j = true
      · simp only [hm, if_true]
        rw [hval j]
        simp [hm]
      · simp [hm]
    rw [hsplit, div_self (ne_of_gt hZpos)]

/-- C3 witness: the pre-softmax normalization theorem applied at the concrete
two-token instance whose mask keeps position 0. -/
theorem pre_softmax_row_sums_to_one_witness :
    (∀ v : ℚ, 0 < Eone v) ∧ Apre2.prune_mode = true ∧
    Apre2.prune_after_softmax = false ∧
    (∃ j, Apre2.attention_mask 0 0 j = true) ∧
    ((∀ j, Apre2.attention_mask 0 0 j = false →
      Apre2.attentionProbs Eone 1 xone2 0 0 0 j = 0) ∧
    (∑ j, (if Apre2.attention_mask 0 0 j then
      Apre2.attentionProbs Eone 1 xone2 0 0 0 j else 0)) = 1) :=
  ⟨fun _ => one_pos, rfl, rfl, ⟨0, rfl⟩,
    pre_softmax_row_sums_to_one Eone (fun _ => one_pos) 1 Apre2 rfl rfl
      xone2 0 0 0 ⟨0, rfl⟩⟩

/-- C8: when the checkpoint token count differs from the model's, the
classifier is token and both spatial row counts are the squares of their
floor square roots (the square-grid reshapes the claim describes), the import
yields a table of exactly the target shape whose class-token row is the
checkpoint class-token row verbatim and whose spatial rows are the reshaped
checkpoint grid resized by the order-1 interpolator. -/
theorem load_posemb_resize_token {h no nn : ℕ}
    (zoom : (a : ℕ) → (b : ℕ) → (Fin a → Fin a → Fin h → ℚ) → Fin b → Fin b → Fin h → ℚ)
    (posemb : Fin no → Fin h → ℚ) (hne : no ≠ nn) (hno : 1 ≤ no)
    (hold : Nat.sqrt (no - 1) * Nat.sqrt (no - 1) = no - 1)
    (hnew : 1 + Nat.sqrt (nn - 1) * Nat.sqrt (nn - 1) = nn) :
    ∃ t : Fin nn → Fin h → ℚ,
      load_posemb zoom "token" posemb = some t ∧
      (∀ k, t ⟨0, by omega⟩ k = posemb ⟨0, hno⟩ k) ∧
      (∀ (i : Fin nn) (hi : i.1 ≠ 0) (k : Fin h),
        t i k =
          zoom (Nat.sqrt (no - 1)) (Nat.sqrt (nn - 1))
            (reshapeGrid (Nat.sqrt (no - 1)) hold hno posemb)
            (@unIdx (Nat.sqrt (nn - 1)) (Nat.sqrt (nn - 1))
              ⟨i.1 - 1, by have h2 := i.2; omega⟩).1
            (@unIdx (Nat.sqrt (nn - 1)) (Nat.sqrt (nn - 1))
              ⟨i.1 - 1, by have h2 := i.2; omega⟩).2 k) := by
  refine ⟨resizedPosemb zoom posemb hno hold hnew, ?_, ?_, ?_⟩
  · unfold load_posemb
    rw [dif_neg hne, if_pos rfl, dif_pos hno, dif_pos hold, dif_pos hnew]
  · intro k
    simp [resizedPosemb]
  · intro i hi k
    unfold resizedPosemb
    rw [dif_neg hi]

/-- C8 witness: resizing a 2-row (class row plus 1-by-1 grid) checkpoint
embedding into a 5-row (class row plus 2-by-2 grid) model. -/
theorem load_posemb_resize_token_witness :
    (2 : ℕ) ≠ 5 ∧ (1 : ℕ) ≤ 2 ∧
    Nat.sqrt (2 - 1) * Nat.sqrt (2 - 1) = 2 - 1 ∧
    1 + Nat.sqrt (5 - 1) * Nat.sqrt (5 - 1) = 5 ∧
    (∃ t : Fin 5 → Fin 1 → ℚ,
      load_posemb zoomZero "token" rampPosemb = some t ∧
      (∀ k, t ⟨0, by omega⟩ k = rampPosemb ⟨0, by omega⟩ k)) := by
  have hold : Nat.sqrt (2 - 1) * Nat.sqrt (2 - 1) = 2 - 1 := by
    norm_num [Nat.sqrt]
  have hnew : 1 + Nat.sqrt (5 - 1) * Nat.sqrt (5 - 1) = 5 := by
    norm_num [Nat.sqrt]
  refine ⟨by omega, by omega, hold, hnew, ?_⟩
  obtain ⟨t, h1, h2, _⟩ :=
    load_posemb_resize_token zoomZero rampPosemb (by omega) (by omega) hold hnew
  exact ⟨t, h1, h2⟩

/-- C10: with zero_head the imported classification head has weight and bias
identically zero for every checkpoint bundle, including bundles missing the
head entries entirely (they are never read); without zero_head the checkpoint
head kernel is copied transposed and the bias copied directly. -/
theorem load_head_zero_or_copy {H C : ℕ} (w : WeightBundle) :
    (@load_head H C true w =
      .ok { weight := fun _ _ => 0, bias := fun _ => 0 }) ∧
    (∀ hk hb, w.mat "head/kernel" = some hk → w.vec "head/bias" = some hb →
      @load_head H C false w =
        .ok { weight := fun c hh => hk hh.1 c.1, bias := fun c => hb c.1 }) := by
  constructor
  · rfl
  · intro hk hb hmk hvb
    simp only [load_head, lookupMat, lookupVec, hmk, hvb]
    rfl

/-- C10 witness: the head import applied to the all-zero bundle, with and
without zero_head. -/
theorem load_head_zero_or_copy_witness :
    (@load_head 1 1 true fullBundle =
      .ok { weight := fun _ _ => 0, bias := fun _ => 0 }) ∧
    fullBundle.mat "head/kernel" = some (fun _ _ => 0) ∧
    fullBundle.vec "head/bias" = some (fun _ => 0) ∧
    (@load_head 1 1 false fullBundle =
      .ok { weight := fun c hh => (fun _ _ => (0 : ℚ)) hh.1 c.1,
            bias := fun c => (fun _ => (0 : ℚ)) c.1 }) :=
  ⟨(load_head_zero_or_copy fullBundle).1, rfl, rfl,
    (load_head_zero_or_copy fullBundle).2 (fun _ _ => 0) (fun _ => 0) rfl rfl⟩

end ViTModel
